import Mathlib

/-!
Shallow embedding of the fractal generator in `src/bin/main.rs`.

Floating-point (`f64`) arithmetic of the source is modelled by exact rational
arithmetic (`ℚ`); the transcendental smoothing computation of the escaped
branch is modelled over `ℝ` with `Real.log` standing for `f64::ln`.
Random draws (`rand::thread_rng`) are modelled as explicit streams passed to
the functions that consume them, one independent stream per concurrent unit,
matching the per-task `thread_rng` of the source.
-/

namespace Regen

/-- State of the escape-time loop in `generate_mathematical_image`
(`src/bin/main.rs`, lines 66-78): `z_real`, `z_imag`, `iterations`,
`magnitude_sq`, all initialised to zero before the `while` loop. -/
structure EvalState where
  z_real : ℚ
  z_imag : ℚ
  iterations : ℕ
  magnitude_sq : ℚ

/-- The initial loop state: `z = 0`, `iterations = 0`, `magnitude_sq = 0.0`. -/
def initState : EvalState := ⟨0, 0, 0, 0⟩

/-- One iteration of the loop body (lines 73-77):
`next_z_real = z_real*z_real - z_imag*z_imag + c_real`;
`z_imag = 2.0*z_real*z_imag + c_imag`; `z_real = next_z_real`;
`magnitude_sq = z_real*z_real + z_imag*z_imag`; `iterations += 1`. -/
def evalStep (c_real c_imag : ℚ) (s : EvalState) : EvalState :=
  let next_z_real := s.z_real * s.z_real - s.z_imag * s.z_imag + c_real
  let new_z_imag := 2 * s.z_real * s.z_imag + c_imag
  { z_real := next_z_real
    z_imag := new_z_imag
    iterations := s.iterations + 1
    magnitude_sq := next_z_real * next_z_real + new_z_imag * new_z_imag }

/-- The `while magnitude_sq < 4.0 && iterations < max_iterations` loop
(line 72), fuel-indexed. Since `iterations` grows by one per pass and the
guard requires `iterations < max_iterations`, fuel `max_iterations` always
suffices to reach the exit condition. -/
def evalLoop (c_real c_imag : ℚ) (max_iterations : ℕ) : ℕ → EvalState → EvalState
  | 0, s => s
  | fuel + 1, s =>
    if s.magnitude_sq < 4 ∧ s.iterations < max_iterations then
      evalLoop c_real c_imag max_iterations fuel (evalStep c_real c_imag s)
    else s

/-- The escape-time evaluator: runs the loop from the zero state and returns
`(iterations, magnitude_sq)`, exactly the data the branch at lines 80-97
inspects. -/
def mandelbrotEval (c_real c_imag : ℚ) (max_iterations : ℕ) : ℕ × ℚ :=
  let s := evalLoop c_real c_imag max_iterations max_iterations initState
  (s.iterations, s.magnitude_sq)

/-- The unconditional trace of the loop body: the state after `k` executions
of the body starting from the zero state. -/
def evalIter (c_real c_imag : ℚ) (k : ℕ) : EvalState :=
  (evalStep c_real c_imag)^[k] initState

/-- `log_zn = magnitude_sq.ln() / 2.0` (line 85), over `ℝ`. -/
noncomputable def log_zn (magnitude_sq : ℚ) : ℝ :=
  Real.log (magnitude_sq : ℝ) / 2

/-- The argument of the outer `ln` at line 86: `log_zn / 2.0_f64.ln()`. -/
noncomputable def nu_arg (magnitude_sq : ℚ) : ℝ :=
  log_zn magnitude_sq / Real.log 2

/-- An RGB triple as stored in the `RgbImage` buffer. -/
abbrev Color := ℕ × ℕ × ℕ

/-- A pixel grid, addressed as `grid x y` like `img.put_pixel(x, y, ...)`. -/
abbrev Grid := ℕ → ℕ → Color

/-- The `mandelbrot_params` tuple
`(x_pos, y_pos, escape_radius, max_iterations, smoothness, color_step)`. -/
structure FractalParams where
  x_pos : ℚ
  y_pos : ℚ
  escape_radius : ℚ
  max_iterations : ℕ
  smoothness : ℕ
  color_step : ℚ

/-- Defaults used when `mandelbrot_params` is `None` (line 50):
`(-0.00275, 0.78912, 0.125689, 800, 8, 6000.0)`. -/
def defaultParams : FractalParams :=
  { x_pos := -(275 / 100000 : ℚ)
    y_pos := 78912 / 100000
    escape_radius := 125689 / 1000000
    max_iterations := 800
    smoothness := 8
    color_step := 6000 }

/-- The complex-plane rectangle mapped onto the pixel grid. -/
structure ViewWindow where
  x_min : ℚ
  x_max : ℚ
  y_min : ℚ
  y_max : ℚ

/-- Window derivation (lines 53-59): `view_width = 4.0 * escape_radius`,
`view_height = view_width * (height / width)`, centred at `(x_pos, y_pos)`. -/
def viewWindow (width height : ℕ) (p : FractalParams) : ViewWindow :=
  let view_width : ℚ := 4 * p.escape_radius
  let view_height : ℚ := view_width * ((height : ℚ) / (width : ℚ))
  { x_min := p.x_pos - view_width / 2
    x_max := p.x_pos + view_width / 2
    y_min := p.y_pos - view_height / 2
    y_max := p.y_pos + view_height / 2 }

/-- Pixel-to-plane mapping (lines 63-64):
`c_real = x_min + (x / width) * (x_max - x_min)` and similarly for `y`. -/
def pixelToPlane (width height : ℕ) (v : ViewWindow) (x y : ℕ) : ℚ × ℚ :=
  (v.x_min + ((x : ℚ) / (width : ℚ)) * (v.x_max - v.x_min),
   v.y_min + ((y : ℚ) / (height : ℚ)) * (v.y_max - v.y_min))

/-- The plane coordinate of pixel `(x, y)` under the window derived from `p`. -/
def mandelbrotPoint (width height : ℕ) (p : FractalParams) (x y : ℕ) : ℚ × ℚ :=
  pixelToPlane width height (viewWindow width height p) x y

/-- The colour painted for one pixel (lines 80-97): black when
`iterations == max_iterations`; otherwise the smoothed intensity is computed
(lines 85-90) but discarded (`_intensity`), and both branches of the
`smoothness == 0` test paint pure white. -/
def mandelbrotPixel (c_real c_imag : ℚ) (max_iterations smoothness : ℕ)
    (color_step : ℚ) : Color :=
  let e := mandelbrotEval c_real c_imag max_iterations
  if e.1 = max_iterations then (0, 0, 0)
  else if smoothness = 0 then (255, 255, 255) else (255, 255, 255)

/-- The white-background initialisation (lines 36-40): every in-bounds pixel
is set to `(255, 255, 255)` over whatever the fresh buffer `g0` held. -/
def whiteFill (width height : ℕ) (g0 : Grid) : Grid :=
  fun x y => if x < width ∧ y < height then (255, 255, 255) else g0 x y

/-- The `match pattern_type` dispatch (lines 42-118), per pixel: in
`"mandelbrot"` mode every in-bounds pixel is painted by `mandelbrotPixel`;
any other pattern paints every in-bounds pixel from the random stream `rng`
(the noise fallback). Out-of-bounds positions keep the underlying buffer. -/
def applyPattern (width height : ℕ) (pattern_type : String) (rng : ℕ → ℕ → Color)
    (mandelbrot_params : Option FractalParams) (g : Grid) : Grid :=
  fun x y =>
    if x < width ∧ y < height then
      if pattern_type = "mandelbrot" then
        let p := mandelbrot_params.getD defaultParams
        mandelbrotPixel (mandelbrotPoint width height p x y).1
          (mandelbrotPoint width height p x y).2 p.max_iterations p.smoothness p.color_step
      else rng x y
    else g x y

/-- The pixel content produced by `generate_mathematical_image`: white
background fill followed by the pattern dispatch. `g0` is the fresh buffer
content and `rng` the per-call `thread_rng` stream (used only by the noise
fallback branch). -/
def generate_mathematical_image (width height : ℕ) (pattern_type : String)
    (rng : ℕ → ℕ → Color) (mandelbrot_params : Option FractalParams) (g0 : Grid) : Grid :=
  applyPattern width height pattern_type rng mandelbrot_params (whiteFill width height g0)

/-- The acceptance loop of one sampler task (lines 213-257):
state `(fractal_ratio, attempts)` starting at `(0.0, 0)`; while
`fractal_ratio < 0.3 || fractal_ratio > 0.7` the body draws the ratio of the
next synthesized image (`draws attempts`) and increments `attempts`.
Fuel-indexed since the source loop is unbounded by design; `none` means the
fuel ran out while the loop was still rejecting. -/
def sampleLoop (draws : ℕ → ℚ) : ℕ → ℚ → ℕ → Option (ℚ × ℕ)
  | 0, r, attempts =>
    if r < 3 / 10 ∨ r > 7 / 10 then none else some (r, attempts)
  | fuel + 1, r, attempts =>
    if r < 3 / 10 ∨ r > 7 / 10 then
      sampleLoop draws fuel (draws attempts) (attempts + 1)
    else some (r, attempts)

/-- One sampler instance: run the acceptance loop from `fractal_ratio = 0.0`,
`attempts = 0`. -/
def sample_until_accepted (draws : ℕ → ℚ) (fuel : ℕ) : Option (ℚ × ℕ) :=
  sampleLoop draws fuel 0 0

/-- Outcome of one spawned generation task as seen by its `JoinHandle`:
either the task panicked (a `JoinError`) or it ran to completion returning
its inner `Result<(), Box<dyn Error>>`. -/
inductive JoinOutcome where
  | panicked : JoinOutcome
  | completed : Except String Unit → JoinOutcome

/-- Awaiting one `JoinHandle`: yields `Err(JoinError)` on panic, otherwise
`Ok` carrying the task return value — including `Ok(Err(e))` when the task
itself failed. -/
def joinHandleAwait : JoinOutcome → Except String (Except String Unit)
  | JoinOutcome.panicked => Except.error "JoinError"
  | JoinOutcome.completed r => Except.ok r

/-- `futures::future::try_join_all` over the join handles: fails on the first
`JoinError`, otherwise collects the inner task results into a `Vec`. -/
def tryJoinAll (tasks : List JoinOutcome) : Except String (List (Except String Unit)) :=
  tasks.mapM joinHandleAwait

/-- The orchestrator aggregation `try_join_all(tasks).await?;` (line 304):
the `?` propagates only the `JoinError` layer; the collected `Vec` of inner
per-task `Result`s is dropped by the trailing semicolon. -/
def runGenerate (tasks : List JoinOutcome) : Except String Unit := do
  let _ ← tryJoinAll tasks
  pure ()

/-- `rng.gen_range(lo..=hi)` for naturals, modelled as mapping a raw draw
into the inclusive range `[lo, hi]`. -/
def gen_range_inclusive (lo hi : ℕ) (draw : ℕ) : ℕ :=
  lo + draw % (hi + 1 - lo)

/-- The noise padding stage (lines 261-268): draw
`noise_bytes = gen_range(1_000_000..=3_000_000)`, build a buffer of exactly
`noise_bytes` random bytes, seek to the end of the file and append it
(`write_all`, no truncation). The file is a byte list; `stream` supplies the
random bytes. -/
def noisePad (file : List ℕ) (draw : ℕ) (stream : ℕ → ℕ) : List ℕ :=
  let noise_bytes := gen_range_inclusive 1000000 3000000 draw
  file ++ (List.range noise_bytes).map stream

/-- The hard-coded Space name (line 420). -/
def bucket : String := "benchmarkap"

/-- The hard-coded region (line 421). -/
def do_region : String := "lon1"

/-- Origin URL built at lines 498-504. -/
def origin_url (file : String) : String :=
  "https://" ++ bucket ++ "." ++ do_region ++ ".digitaloceanspaces.com/" ++
    "fractals/" ++ file

/-- CDN URL built at lines 505-511. -/
def cdn_url (file : String) : String :=
  "https://" ++ bucket ++ "." ++ do_region ++ ".cdn.digitaloceanspaces.com/" ++
    "fractals/" ++ file

/-- `Path::new(file).file_name()` (lines 513-516): the component after the
last path separator. -/
def file_name_of (file : String) : String :=
  (file.splitOn "/").getLastD file

/-- One CSV row `(cdn_url, origin_url, file_name, file_size_kib)`, the shape
written at lines 549-551. -/
abbrev Row := String × String × String × String

/-- The per-file upsert (lines 497-537): skip when some existing row has its
FIRST column equal to the relative filename
(`existing_rows.iter().any(|(f, _, _, _)| f == file)`), otherwise push
`(cdn_url, origin_url, file_name, file_size_kib)`. -/
def appendRow (rows : List Row) (file sizeKib : String) : List Row :=
  if rows.any (fun r => r.1 = file) then rows
  else rows ++ [(cdn_url file, origin_url file, file_name_of file, sizeKib)]

/-- The bookkeeping pass over all uploaded files: fold `appendRow` over the
rows loaded from the existing CSV. `uploads` pairs each relative filename
with its formatted size in KiB. -/
def append_urls (existing : List Row) (uploads : List (String × String)) : List Row :=
  uploads.foldl (fun rows fu => appendRow rows fu.1 fu.2) existing

/-- Concrete parameter vector used by witnesses. -/
def paramsA : FractalParams :=
  { x_pos := 0, y_pos := 0, escape_radius := 1, max_iterations := 1,
    smoothness := 1, color_step := 1 }

/-- Concrete noise stream used by witnesses. -/
def rngA : ℕ → ℕ → Color := fun _ _ => (7, 7, 7)

/-- A second, different noise stream used by witnesses. -/
def rngB : ℕ → ℕ → Color := fun _ _ => (9, 1, 4)

/-- Concrete fresh-buffer content used by witnesses. -/
def gridA : Grid := fun _ _ => (1, 2, 3)

/-- A second, different fresh-buffer content used by witnesses. -/
def gridB : Grid := fun _ _ => (4, 5, 6)

/-- Constant ratio stream used by the acceptance-loop witness. -/
def drawsA : ℕ → ℚ := fun _ => 1 / 2

/-- CSV state after a previous successful run: one row for
`mandelbrot_0.png`, with the filename in the third column as written by the
source. -/
def c9_existing : List Row :=
  [(cdn_url "mandelbrot_0.png", origin_url "mandelbrot_0.png",
    file_name_of "mandelbrot_0.png", "100.00")]

/-- The same file uploaded again on a second run. -/
def c9_uploads : List (String × String) := [("mandelbrot_0.png", "100.00")]

theorem evalIter_zero (c_real c_imag : ℚ) : evalIter c_real c_imag 0 = initState := rfl

theorem evalIter_succ (c_real c_imag : ℚ) (k : ℕ) :
    evalIter c_real c_imag (k + 1) = evalStep c_real c_imag (evalIter c_real c_imag k) :=
  Function.iterate_succ_apply' _ _ _

theorem evalIter_iterations (c_real c_imag : ℚ) (k : ℕ) :
    (evalIter c_real c_imag k).iterations = k := by
  induction k with
  | zero => rfl
  | succ k ih => rw [evalIter_succ]; simp [evalStep, ih]

/-- The loop only ever applies the body, so its result lies on the trace at
the index given by its own iteration counter. -/
theorem evalLoop_on_trace (c_real c_imag : ℚ) (m : ℕ) :
    ∀ fuel k, evalLoop c_real c_imag m fuel (evalIter c_real c_imag k) =
      evalIter c_real c_imag
        (evalLoop c_real c_imag m fuel (evalIter c_real c_imag k)).iterations := by
  intro fuel
  induction fuel with
  | zero =>
    intro k
    simp [evalLoop, evalIter_iterations]
  | succ fuel ih =>
    intro k
    by_cases h : (evalIter c_real c_imag k).magnitude_sq < 4 ∧
        (evalIter c_real c_imag k).iterations < m
    · rw [evalLoop, if_pos h, ← evalIter_succ]
      exact ih (k + 1)
    · rw [evalLoop, if_neg h, evalIter_iterations]

/-- Every trace index strictly below the final iteration count was a state at
which the guard passed: its magnitude was below `4.0` and its index below
`max_iterations`. -/
theorem evalLoop_guard_passed (c_real c_imag : ℚ) (m : ℕ) :
    ∀ fuel k j, k ≤ j →
      j < (evalLoop c_real c_imag m fuel (evalIter c_real c_imag k)).iterations →
      (evalIter c_real c_imag j).magnitude_sq < 4 ∧ j < m := by
  intro fuel
  induction fuel with
  | zero =>
    intro k j hkj hj
    rw [evalLoop, evalIter_iterations] at hj
    exact absurd hkj (by omega)
  | succ fuel ih =>
    intro k j hkj hj
    by_cases h : (evalIter c_real c_imag k).magnitude_sq < 4 ∧
        (evalIter c_real c_imag k).iterations < m
    · rw [evalLoop, if_pos h] at hj
      rw [← evalIter_succ] at hj
      rcases Nat.eq_or_lt_of_le hkj with rfl | hlt
      · exact ⟨h.1, by rw [evalIter_iterations] at h; exact h.2⟩
      · exact ih (k + 1) j hlt hj
    · rw [evalLoop, if_neg h, evalIter_iterations] at hj
      exact absurd hkj (by omega)

/-- With fuel at least `max_iterations - iterations`, the loop result violates
the guard: it exits only because `magnitude_sq ≥ 4.0` or
`iterations = max_iterations`. -/
theorem evalLoop_exit (c_real c_imag : ℚ) (m : ℕ) :
    ∀ fuel s, m ≤ s.iterations + fuel →
      ¬((evalLoop c_real c_imag m fuel s).magnitude_sq < 4 ∧
        (evalLoop c_real c_imag m fuel s).iterations < m) := by
  intro fuel
  induction fuel with
  | zero =>
    intro s hs
    rw [evalLoop]
    rintro ⟨-, hlt⟩
    omega
  | succ fuel ih =>
    intro s hs
    by_cases h : s.magnitude_sq < 4 ∧ s.iterations < m
    · rw [evalLoop, if_pos h]
      exact ih (evalStep c_real c_imag s) (by simp [evalStep]; omega)
    · rw [evalLoop, if_neg h]
      exact h

/-- The returned iteration count never exceeds `max_iterations`. -/
theorem mandelbrotEval_iterations_le (c_real c_imag : ℚ) (m : ℕ) :
    (mandelbrotEval c_real c_imag m).1 ≤ m := by
  by_contra h
  push_neg at h
  have := evalLoop_guard_passed c_real c_imag m m 0 m (Nat.zero_le m)
    (by simpa [mandelbrotEval, evalIter_zero] using h)
  omega

/-- In mandelbrot mode every in-bounds pixel is produced by `mandelbrotPixel`
at that pixel's plane coordinate, independently of the noise stream and of
the fresh-buffer content. -/
theorem generate_mandelbrot_pixel (width height : ℕ) (rng : ℕ → ℕ → Color)
    (params : Option FractalParams) (g0 : Grid) (x y : ℕ)
    (hx : x < width) (hy : y < height) :
    generate_mathematical_image width height "mandelbrot" rng params g0 x y =
      mandelbrotPixel (mandelbrotPoint width height (params.getD defaultParams) x y).1
        (mandelbrotPoint width height (params.getD defaultParams) x y).2
        (params.getD defaultParams).max_iterations
        (params.getD defaultParams).smoothness
        (params.getD defaultParams).color_step := by
  unfold generate_mathematical_image applyPattern
  rw [if_pos ⟨hx, hy⟩, if_pos rfl]

/-- The colour painted for a pixel collapses to a pure two-tone choice on the
bounded-membership test, for every smoothness and colour step. -/
theorem mandelbrotPixel_cases (c_real c_imag : ℚ) (m smoothness : ℕ) (cs : ℚ) :
    mandelbrotPixel c_real c_imag m smoothness cs =
      if (mandelbrotEval c_real c_imag m).1 = m then ((0, 0, 0) : Color)
      else (255, 255, 255) := by
  by_cases h : (mandelbrotEval c_real c_imag m).1 = m <;>
    simp [mandelbrotPixel, h]

/-- C1: when the acceptance loop of a sampler instance exits with a result,
the final `fractal_ratio` lies inside the configured band, here
`[0.3, 0.7]` inclusive at both ends; the loop never returns a ratio outside
that band. -/
theorem c1_acceptance_band_on_exit (draws : ℕ → ℚ) :
    ∀ fuel (r : ℚ) (attempts : ℕ) (r_out : ℚ) (n : ℕ),
      sampleLoop draws fuel r attempts = some (r_out, n) →
      3 / 10 ≤ r_out ∧ r_out ≤ 7 / 10 := by
  intro fuel
  induction fuel with
  | zero =>
    intro r attempts r_out n h
    rw [sampleLoop] at h
    by_cases hg : r < 3 / 10 ∨ r > 7 / 10
    · rw [if_pos hg] at h
      exact absurd h (by simp)
    · rw [if_neg hg] at h
      push_neg at hg
      simp only [Option.some.injEq, Prod.mk.injEq] at h
      obtain ⟨rfl, -⟩ := h
      exact ⟨hg.1, hg.2⟩
  | succ fuel ih =>
    intro r attempts r_out n h
    rw [sampleLoop] at h
    by_cases hg : r < 3 / 10 ∨ r > 7 / 10
    · rw [if_pos hg] at h
      exact ih _ _ _ _ h
    · rw [if_neg hg] at h
      push_neg at hg
      simp only [Option.some.injEq, Prod.mk.injEq] at h
      obtain ⟨rfl, -⟩ := h
      exact ⟨hg.1, hg.2⟩

/-- Witness for C1: with a constant ratio stream at `1/2` the loop accepts on
the first synthesized image and the returned ratio is in the band. -/
theorem c1_acceptance_band_on_exit_witness :
    sample_until_accepted drawsA 1 = some (1 / 2, 1) ∧
      3 / 10 ≤ (1 / 2 : ℚ) ∧ (1 / 2 : ℚ) ≤ 7 / 10 :=
  ⟨by norm_num [sample_until_accepted, sampleLoop, drawsA],
    c1_acceptance_band_on_exit drawsA 1 0 0 (1 / 2) 1
      (by norm_num [sampleLoop, drawsA])⟩

/-- C2: in mandelbrot mode every in-bounds pixel is painted exactly
`(0,0,0)` when its evaluation reaches `iterations == max_iterations` and
exactly `(255,255,255)` when it escapes earlier, for all `smoothness` and
`color_step`; in particular every pixel is black or white. -/
theorem c2_two_tone (width height : ℕ) (rng : ℕ → ℕ → Color)
    (params : Option FractalParams) (g0 : Grid) (x y : ℕ)
    (hx : x < width) (hy : y < height) :
    generate_mathematical_image width height "mandelbrot" rng params g0 x y =
      (if (mandelbrotEval (mandelbrotPoint width height (params.getD defaultParams) x y).1
            (mandelbrotPoint width height (params.getD defaultParams) x y).2
            (params.getD defaultParams).max_iterations).1 =
          (params.getD defaultParams).max_iterations
        then ((0, 0, 0) : Color) else (255, 255, 255)) ∧
      (generate_mathematical_image width height "mandelbrot" rng params g0 x y = (0, 0, 0) ∨
        generate_mathematical_image width height "mandelbrot" rng params g0 x y
          = (255, 255, 255)) := by
  have h := generate_mandelbrot_pixel width height rng params g0 x y hx hy
  constructor
  · rw [h, mandelbrotPixel_cases]
  · rw [h, mandelbrotPixel_cases]
    split
    · exact Or.inl rfl
    · exact Or.inr rfl

/-- Witness for C2 at a concrete 1×1 grid with concrete parameters, noise
stream and buffer content. -/
theorem c2_two_tone_witness :
    ((0 : ℕ) < 1 ∧ (0 : ℕ) < 1) ∧
      (generate_mathematical_image 1 1 "mandelbrot" rngA (some paramsA) gridA 0 0 = (0, 0, 0) ∨
        generate_mathematical_image 1 1 "mandelbrot" rngA (some paramsA) gridA 0 0
          = (255, 255, 255)) :=
  ⟨⟨Nat.one_pos, Nat.one_pos⟩,
    (c2_two_tone 1 1 rngA (some paramsA) gridA 0 0 Nat.one_pos Nat.one_pos).2⟩

/-- C3 counterexample: at `c_real = 3`, `c_imag = 0`, `max_iterations = 1`
the loop exits with `iterations == max_iterations` yet the final
`magnitude_sq` is `9 ≥ 4.0` — the point escaped on the very last iteration,
so the claim that `magnitude_sq` stayed below `4.0` for the whole run,
including the final value, is false. -/
theorem c3_counterexample :
    (mandelbrotEval 3 0 1).1 = 1 ∧ ¬(mandelbrotEval 3 0 1).2 < 4 := by
  norm_num [mandelbrotEval, evalLoop, evalStep, initState]

/-- C3 (amended): if the evaluation returns `iterations == max_iterations`
then `magnitude_sq` was strictly below `4.0` at every loop-guard check that
passed, i.e. after each of the first `max_iterations - 1` iterations; only
the final returned `magnitude_sq` may reach `4.0` or beyond. -/
theorem c3_amended_no_escape_before_last (c_real c_imag : ℚ) (m : ℕ)
    (h : (mandelbrotEval c_real c_imag m).1 = m) :
    ∀ j, j < m → (evalIter c_real c_imag j).magnitude_sq < 4 := by
  intro j hj
  have h0 : (evalLoop c_real c_imag m m (evalIter c_real c_imag 0)).iterations = m := by
    simpa [mandelbrotEval, evalIter_zero] using h
  exact (evalLoop_guard_passed c_real c_imag m m 0 j (Nat.zero_le j)
    (by rw [h0]; exact hj)).1

/-- Witness for the amended C3: `c = 0` never escapes, so with
`max_iterations = 2` the run returns `iterations = 2` and the magnitude
after the first iteration is below `4.0`. -/
theorem c3_amended_witness :
    (mandelbrotEval 0 0 2).1 = 2 ∧ (evalIter 0 0 1).magnitude_sq < 4 :=
  ⟨by norm_num [mandelbrotEval, evalLoop, evalStep, initState],
    c3_amended_no_escape_before_last 0 0 2
      (by norm_num [mandelbrotEval, evalLoop, evalStep, initState]) 1 (by norm_num)⟩

/-- C4: the escape-time loop terminates for every input — the fuel
`max_iterations` always reaches the exit condition — with
`iterations ≤ max_iterations`, and it stops exactly because
`magnitude_sq ≥ 4.0` or `iterations == max_iterations`. -/
theorem c4_termination_and_bound (c_real c_imag : ℚ) (m : ℕ) :
    (mandelbrotEval c_real c_imag m).1 ≤ m ∧
      (4 ≤ (mandelbrotEval c_real c_imag m).2 ∨ (mandelbrotEval c_real c_imag m).1 = m) := by
  refine ⟨mandelbrotEval_iterations_le c_real c_imag m, ?_⟩
  have hexit := evalLoop_exit c_real c_imag m m initState (by simp [initState])
  rcases not_and_or.mp hexit with hmag | hit
  · exact Or.inl (by simpa [mandelbrotEval] using not_lt.mp hmag)
  · refine Or.inr ?_
    have h1 := mandelbrotEval_iterations_le c_real c_imag m
    have h2 : ¬(mandelbrotEval c_real c_imag m).1 < m := by
      simpa [mandelbrotEval] using hit
    omega

/-- C5 (code bug): a batch whose single task runs to completion but returns
an inner I/O error is reported as overall success — `try_join_all` over the
join handles only fails on a `JoinError`, and the collected inner task
results are dropped, so the inner error is never propagated. -/
theorem c5_inner_error_swallowed :
    runGenerate [JoinOutcome.completed (Except.error "io error")] = Except.ok () := rfl

/-- C6: the padding stage draws `noise_bytes` inside the inclusive range
`[1_000_000, 3_000_000]`, appends exactly that many bytes at the end of the
file without truncating it, so the new size is the old size plus
`noise_bytes` and the original bytes are preserved as a prefix. -/
theorem c6_padding_size_law (file : List ℕ) (draw : ℕ) (stream : ℕ → ℕ) :
    1000000 ≤ gen_range_inclusive 1000000 3000000 draw ∧
      gen_range_inclusive 1000000 3000000 draw ≤ 3000000 ∧
      (noisePad file draw stream).length =
        file.length + gen_range_inclusive 1000000 3000000 draw ∧
      (noisePad file draw stream).take file.length = file := by
  refine ⟨?_, ?_, ?_, ?_⟩
  · unfold gen_range_inclusive
    omega
  · unfold gen_range_inclusive
    omega
  · simp [noisePad]
  · simp [noisePad, List.take_append]

/-- C7: for positive dimensions and a positive escape radius, the view
window spans `4 × escape_radius` horizontally and
`4 × escape_radius × (height/width)` vertically, is centred at
`(x_pos, y_pos)` with `x_min < x_max` and `y_min < y_max`, and each pixel is
mapped linearly into the window exactly as at lines 63-64. -/
theorem c7_view_window_law (width height : ℕ) (p : FractalParams)
    (hw : 0 < width) (hh : 0 < height) (he : 0 < p.escape_radius) :
    (viewWindow width height p).x_max - (viewWindow width height p).x_min
        = 4 * p.escape_radius ∧
      (viewWindow width height p).y_max - (viewWindow width height p).y_min
        = 4 * p.escape_radius * ((height : ℚ) / (width : ℚ)) ∧
      ((viewWindow width height p).x_min + (viewWindow width height p).x_max) / 2
        = p.x_pos ∧
      ((viewWindow width height p).y_min + (viewWindow width height p).y_max) / 2
        = p.y_pos ∧
      (viewWindow width height p).x_min < (viewWindow width height p).x_max ∧
      (viewWindow width height p).y_min < (viewWindow width height p).y_max ∧
      ∀ x y : ℕ, pixelToPlane width height (viewWindow width height p) x y =
        ((viewWindow width height p).x_min + ((x : ℚ) / (width : ℚ)) *
            ((viewWindow width height p).x_max - (viewWindow width height p).x_min),
          (viewWindow width height p).y_min + ((y : ℚ) / (height : ℚ)) *
            ((viewWindow width height p).y_max - (viewWindow width height p).y_min)) := by
  have hwq : (0 : ℚ) < (width : ℚ) := by exact_mod_cast hw
  have hhq : (0 : ℚ) < (height : ℚ) := by exact_mod_cast hh
  have hvh : (0 : ℚ) < 4 * p.escape_radius * ((height : ℚ) / (width : ℚ)) :=
    mul_pos (by linarith) (div_pos hhq hwq)
  simp only [viewWindow]
  refine ⟨by ring, by ring, by ring, by ring, by linarith, by linarith, fun x y => rfl⟩

/-- Witness for C7 at a concrete 2×1 grid with `escape_radius = 1`. -/
theorem c7_view_window_law_witness :
    ((0 : ℕ) < 2 ∧ (0 : ℕ) < 1 ∧ (0 : ℚ) < paramsA.escape_radius) ∧
      (viewWindow 2 1 paramsA).x_max - (viewWindow 2 1 paramsA).x_min
        = 4 * paramsA.escape_radius :=
  ⟨⟨by decide, by decide, by norm_num [paramsA]⟩,
    (c7_view_window_law 2 1 paramsA (by decide) (by decide) (by norm_num [paramsA])).1⟩

/-- C8: whenever the escaped branch runs (`iterations < max_iterations` on
loop exit), `magnitude_sq ≥ 4.0`, so the argument of the first `ln`
(`magnitude_sq`) and the argument of the second `ln` (`log_zn / ln 2`) are
both strictly positive even without an explicit guard. -/
theorem c8_smoothing_args_positive (c_real c_imag : ℚ) (m : ℕ)
    (h : (mandelbrotEval c_real c_imag m).1 < m) :
    4 ≤ (mandelbrotEval c_real c_imag m).2 ∧
      (0 : ℝ) < ((mandelbrotEval c_real c_imag m).2 : ℝ) ∧
      0 < log_zn (mandelbrotEval c_real c_imag m).2 ∧
      0 < nu_arg (mandelbrotEval c_real c_imag m).2 := by
  have hexit := evalLoop_exit c_real c_imag m m initState (by simp [initState])
  have h4 : 4 ≤ (mandelbrotEval c_real c_imag m).2 := by
    rcases not_and_or.mp hexit with hmag | hit
    · simpa [mandelbrotEval] using not_lt.mp hmag
    · exact absurd (by simpa [mandelbrotEval] using h) hit
  have h4r : (4 : ℝ) ≤ ((mandelbrotEval c_real c_imag m).2 : ℝ) := by exact_mod_cast h4
  have h1r : (1 : ℝ) < ((mandelbrotEval c_real c_imag m).2 : ℝ) := by linarith
  have hlog : 0 < Real.log ((mandelbrotEval c_real c_imag m).2 : ℝ) := Real.log_pos h1r
  have hlog2 : (0 : ℝ) < Real.log 2 := Real.log_pos (by norm_num)
  refine ⟨h4, by linarith, ?_, ?_⟩
  · unfold log_zn
    exact div_pos hlog two_pos
  · unfold nu_arg log_zn
    exact div_pos (div_pos hlog two_pos) hlog2

/-- Witness for C8: at `c_real = 3`, `c_imag = 0`, `max_iterations = 2` the
point escapes after one iteration and the outer logarithm argument is
positive. -/
theorem c8_smoothing_args_positive_witness :
    (mandelbrotEval 3 0 2).1 < 2 ∧ 0 < nu_arg (mandelbrotEval 3 0 2).2 :=
  ⟨by norm_num [mandelbrotEval, evalLoop, evalStep, initState],
    (c8_smoothing_args_positive 3 0 2
      (by norm_num [mandelbrotEval, evalLoop, evalStep, initState])).2.2.2⟩

/-- C9 (code bug): re-running the upload bookkeeping on a CSV that already
has the row for `mandelbrot_0.png` appends a second row for the same
filename instead of skipping it — the dedup check compares the `cdn_url`
column of each row with the bare relative filename, which never matches. -/
theorem c9_duplicate_row_appended :
    (append_urls c9_existing c9_uploads).length = 2 ∧
      ((append_urls c9_existing c9_uploads).filter
        (fun r => r.2.2.1 = file_name_of "mandelbrot_0.png")).length = 2 := by
  simp [append_urls, appendRow, c9_existing, c9_uploads, cdn_url, origin_url,
    bucket, do_region]

/-- C10: the mandelbrot-mode pixel grid is a function of
`(width, height, params)` alone — two runs with the same inputs agree on
every in-bounds pixel whatever the random-number stream and whatever the
fresh buffer under the white background fill, since every pixel is
overwritten by the mandelbrot branch; determinism of the evaluator is
inherent in `mandelbrotEval` being the same function of
`(c_real, c_imag, max_iterations)` on both sides. -/
theorem c10_mandelbrot_grid_deterministic (width height : ℕ)
    (params : Option FractalParams) (rng1 rng2 : ℕ → ℕ → Color)
    (g1 g2 : Grid) (x y : ℕ) (hx : x < width) (hy : y < height) :
    generate_mathematical_image width height "mandelbrot" rng1 params g1 x y =
      generate_mathematical_image width height "mandelbrot" rng2 params g2 x y := by
  rw [generate_mandelbrot_pixel width height rng1 params g1 x y hx hy,
    generate_mandelbrot_pixel width height rng2 params g2 x y hx hy]

/-- Witness for C10 at a concrete 1×1 grid: two different noise streams and
two different fresh-buffer contents give the same in-bounds pixel. -/
theorem c10_mandelbrot_grid_deterministic_witness :
    ((0 : ℕ) < 1 ∧ (0 : ℕ) < 1) ∧
      generate_mathematical_image 1 1 "mandelbrot" rngA (some paramsA) gridA 0 0 =
        generate_mathematical_image 1 1 "mandelbrot" rngB (some paramsA) gridB 0 0 :=
  ⟨⟨Nat.one_pos, Nat.one_pos⟩,
    c10_mandelbrot_grid_deterministic 1 1 (some paramsA) rngA rngB gridA gridB 0 0
      Nat.one_pos Nat.one_pos⟩

end Regen
